import Mathlib

/-!
The `getInode` native method of `com.netease.util.InodeUtil`.

A shallow embedding of `src/main/native/com_netease_util_InodeUtil.cpp`.

The native method talks to two collaborators that are not part of the
repository: the Java runtime, reached through the `JNIEnv` function table
(`GetStringUTFChars`, `ReleaseStringUTFChars`), and the C library's
`stat`.  Both are taken as parameters, so every theorem below holds for
every behaviour of these collaborators unless a hypothesis restricts it.
The state passed through the method is explicit (`World`): the runtime's
state, the filesystem, `errno`, and the log of the external calls made.
-/

namespace InodeUtil

/-! ## Data model -/

/-- The JNI type `jlong`: a 64-bit signed integer, kept as an `Int`. -/
abbrev jlong := Int

/-- Smallest value of a `jlong`. -/
def JLONG_MIN : Int := -(2 ^ 63)

/-- Largest value of a `jlong`. -/
def JLONG_MAX : Int := 2 ^ 63 - 1

/-- The JNI type `jclass` (the class the static native method belongs to). -/
abbrev jclass := Nat

/-- The JNI type `jstring`: a reference to a Java string with the given text. -/
structure jstring where
  value : String
  deriving DecidableEq, Repr

/-- A Java throwable, named by its class. -/
abbrev jthrowable := String

/-- A native character buffer: where it lives and the text it holds. -/
structure CharBuf where
  addr : Nat
  chars : String
  deriving DecidableEq, Repr

/-- The C type `const char *`: `none` is `NULL`. -/
abbrev charptr := Option CharBuf

/-- The text a `const char *` points to, when it is not `NULL`. -/
def deref (p : charptr) : Option String :=
  p.map CharBuf.chars

/-- The value of `errno`. -/
abbrev Errno := Nat

def ENOENT : Errno := 2
def EIO : Errno := 5
def EACCES : Errno := 13
def EFAULT : Errno := 14
def ENOTDIR : Errno := 20

/-- The C type `struct stat`, with the fields that identify a file.  `st_ino`
has the unsigned 64-bit type `ino_t`, so its values are below `2 ^ 64`. -/
structure struct_stat where
  st_dev : Nat
  st_ino : Nat
  st_nlink : Nat
  st_size : Nat
  deriving DecidableEq, Repr

/-- The state of the filesystem: the metadata every resolvable path name leads
to (two names of one hard-linked file carry the same record), and the path
names whose lookup is refused. -/
structure FileSystem where
  files : List (String × struct_stat)
  denied : List String
  deriving DecidableEq, Repr

/-- The state of the Java runtime that the native method can influence: the
exception pending on the calling thread, and the native strings handed out by
`GetStringUTFChars` that have not been released. -/
structure JVM where
  pending : Option jthrowable
  utf : List (jstring × CharBuf)
  deriving DecidableEq, Repr

/-- The entries of the JNI function table that the native method calls. -/
structure JNIEnv where
  GetStringUTFChars : jstring → JVM → charptr × JVM
  ReleaseStringUTFChars : jstring → charptr → JVM → JVM

/-- The C library function the native method calls.  `stat` receives the path
text (`none` for a `NULL` pointer) and the filesystem; it answers with the
metadata or with the error it stores in `errno`, and with the filesystem it
leaves. -/
structure Libc where
  stat : Option String → FileSystem → Except Errno struct_stat × FileSystem

/-- One call from the native method to a collaborator, with its arguments and
what came back. -/
inductive Call where
  | GetStringUTFChars (s : jstring) (ret : charptr)
  | stat (pathname : charptr) (ret : Int)
  | ReleaseStringUTFChars (s : jstring) (chars : charptr)
  deriving DecidableEq, Repr

/-- Everything outside the native method's own locals. -/
structure World where
  jvm : JVM
  fs : FileSystem
  errno : Errno
  trace : List Call
  deriving DecidableEq, Repr

/-! ## The native method -/

/-- The C conversion `(jlong) x` of an unsigned 64-bit value: the value is
reinterpreted as two's complement. -/
def castJlong (x : Nat) : Int :=
  if x % 2 ^ 64 < 2 ^ 63 then ((x % 2 ^ 64 : Nat) : Int)
  else ((x % 2 ^ 64 : Nat) : Int) - 2 ^ 64

/-- The call `env->GetStringUTFChars(s, 0)`. -/
def callGetStringUTFChars (env : JNIEnv) (s : jstring) (w : World) : charptr × World :=
  let r := env.GetStringUTFChars s w.jvm
  (r.1, { w with jvm := r.2, trace := w.trace ++ [Call.GetStringUTFChars s r.1] })

/-- The call `stat(pathname, &statbuf)`: the return code, the buffer after the
call and the world after the call.  On success the return code is `0` and the
buffer holds the metadata; on failure the return code is `-1`, `errno` is set
and the buffer is left as it was. -/
def callStat (libc : Libc) (pathname : charptr) (statbuf : struct_stat) (w : World) :
    Int × struct_stat × World :=
  match libc.stat (deref pathname) w.fs with
  | (Except.ok m, fs) =>
      (0, m, { w with fs := fs, trace := w.trace ++ [Call.stat pathname 0] })
  | (Except.error e, fs) =>
      (-1, statbuf, { w with fs := fs, errno := e, trace := w.trace ++ [Call.stat pathname (-1)] })

/-- The call `env->ReleaseStringUTFChars(s, chars)`. -/
def callReleaseStringUTFChars (env : JNIEnv) (s : jstring) (chars : charptr) (w : World) :
    World :=
  { w with jvm := env.ReleaseStringUTFChars s chars w.jvm,
           trace := w.trace ++ [Call.ReleaseStringUTFChars s chars] }

/-- The native method.  `stack` is the content of the uninitialised local
`statbuf` on entry.
```
jlong inode = -1;
const char *cpath = env->GetStringUTFChars(path, 0);
struct stat statbuf;
if (stat(cpath, &statbuf) != -1) {
    inode = (jlong)statbuf.st_ino;
}
env->ReleaseStringUTFChars(path, cpath);
return inode;
```
-/
def Java_com_netease_util_InodeUtil_getInode (env : JNIEnv) (libc : Libc) (_cls : jclass)
    (path : jstring) (stack : struct_stat) (w : World) : jlong × World :=
  let inode : jlong := -1
  let (cpath, w) := callGetStringUTFChars env path w
  let statbuf := stack
  let (rc, statbuf, w) := callStat libc cpath statbuf w
  let inode := if rc ≠ -1 then castJlong statbuf.st_ino else inode
  let w := callReleaseStringUTFChars env path cpath w
  (inode, w)

/-! ## Abbreviations used in the statements -/

/-- The pointer the runtime hands to the native method for `path`. -/
def cpathOf (env : JNIEnv) (path : jstring) (w : World) : charptr :=
  (env.GetStringUTFChars path w.jvm).1

/-- The answer of the status query the native method makes for `path`. -/
def statQuery (env : JNIEnv) (libc : Libc) (path : jstring) (w : World) :
    Except Errno struct_stat :=
  (libc.stat (deref (cpathOf env path w)) w.fs).1

/-- The status query fails: `stat` returns `-1`. -/
def statFails (env : JNIEnv) (libc : Libc) (path : jstring) (w : World) : Prop :=
  ∃ e, statQuery env libc path w = Except.error e

/-! ## Sample collaborators -/

/-- A runtime that converts every string: the buffer is placed at the first
address above the outstanding ones and is forgotten on release. -/
def reliableEnv : JNIEnv where
  GetStringUTFChars := fun s j =>
    let b : CharBuf := { addr := (j.utf.map (fun e => e.2.addr)).foldl max 0 + 1, chars := s.value }
    (some b, { j with utf := (s, b) :: j.utf })
  ReleaseStringUTFChars := fun s p j =>
    match p with
    | some b => { j with utf := j.utf.erase (s, b) }
    | none => j

/-- A runtime out of native memory: the conversion yields `NULL` and leaves
an `OutOfMemoryError` pending, as the JNI programmer's guide describes. -/
def exhaustedEnv : JNIEnv where
  GetStringUTFChars := fun _ j =>
    (none, { j with pending := some "java.lang.OutOfMemoryError" })
  ReleaseStringUTFChars := fun _ _ j => j

/-- A C library whose `stat` looks the path up in the filesystem state and
leaves the filesystem as it is. -/
def posixLibc : Libc where
  stat := fun p fs =>
    match p with
    | none => (Except.error EFAULT, fs)
    | some name =>
        if name ∈ fs.denied then (Except.error EACCES, fs)
        else match fs.files.lookup name with
          | some m => (Except.ok m, fs)
          | none => (Except.error ENOENT, fs)

/-- A filesystem with a file that has two names, a second file, a file with a
large inode number, one with the largest inode number, and a refused path. -/
def sampleFs : FileSystem where
  files :=
    [("/tmp/example.txt", { st_dev := 2049, st_ino := 131077, st_nlink := 2, st_size := 0 }),
     ("/tmp/example.lnk", { st_dev := 2049, st_ino := 131077, st_nlink := 2, st_size := 0 }),
     ("/tmp/other.txt", { st_dev := 2049, st_ino := 131078, st_nlink := 1, st_size := 12 }),
     ("/mnt/big/a", { st_dev := 40, st_ino := 9223372036854775808, st_nlink := 1, st_size := 1 }),
     ("/mnt/big/z", { st_dev := 40, st_ino := 18446744073709551615, st_nlink := 1, st_size := 1 })]
  denied := ["/root/secret"]

/-- A world with no exception pending and nothing logged. -/
def sampleWorld : World where
  jvm := { pending := none, utf := [] }
  fs := sampleFs
  errno := 0
  trace := []

/-- Some content of the uninitialised stack slot. -/
def sampleStack : struct_stat where
  st_dev := 7
  st_ino := 424242
  st_nlink := 3
  st_size := 99

/-- A filesystem whose only file has an inode number above the signed 64-bit
range, as volumes with 64-bit file identifiers hand out. -/
def highInodeFs : FileSystem where
  files :=
    [("/mnt/big/m", { st_dev := 41, st_ino := 9223372036854775813, st_nlink := 1, st_size := 3 })]
  denied := []

/-- A world on that filesystem, with no exception pending and nothing logged. -/
def highInodeWorld : World where
  jvm := { pending := none, utf := [] }
  fs := highInodeFs
  errno := 0
  trace := []

/-- The return code of the `stat` call the native method makes for `path`. -/
def statRc (env : JNIEnv) (libc : Libc) (path : jstring) (stack : struct_stat) (w : World) : Int :=
  (callStat libc (cpathOf env path w) stack (callGetStringUTFChars env path w).2).1

/-- The calls that go to the operating system. -/
def Call.isOsCall : Call → Bool
  | Call.stat _ _ => true
  | Call.GetStringUTFChars _ _ => false
  | Call.ReleaseStringUTFChars _ _ => false

/-! ## The conversion to `jlong` -/

theorem castJlong_mod (x : Nat) : castJlong x = castJlong (x % 2 ^ 64) := by
  unfold castJlong
  rw [Nat.mod_mod]

theorem castJlong_small (y : Nat) (h : y < 2 ^ 63) : castJlong y = (y : Int) := by
  unfold castJlong
  have h1 : y % 2 ^ 64 = y := Nat.mod_eq_of_lt (by omega)
  rw [h1, if_pos h]

theorem castJlong_large (y : Nat) (h1 : 2 ^ 63 ≤ y) (h2 : y < 2 ^ 64) :
    castJlong y = (y : Int) - 2 ^ 64 := by
  unfold castJlong
  have h3 : y % 2 ^ 64 = y := Nat.mod_eq_of_lt h2
  rw [h3, if_neg (by omega)]

theorem castJlong_range (x : Nat) : JLONG_MIN ≤ castJlong x ∧ castJlong x ≤ JLONG_MAX := by
  unfold JLONG_MIN JLONG_MAX
  rw [castJlong_mod]
  have hy : x % 2 ^ 64 < 2 ^ 64 := Nat.mod_lt _ (by norm_num)
  generalize x % 2 ^ 64 = y at hy
  by_cases h : y < 2 ^ 63
  · rw [castJlong_small y h]
    constructor <;> omega
  · rw [castJlong_large y (by omega) hy]
    constructor <;> omega

theorem castJlong_emod (x : Nat) : castJlong x % 2 ^ 64 = ((x % 2 ^ 64 : Nat) : Int) := by
  rw [castJlong_mod]
  have hy : x % 2 ^ 64 < 2 ^ 64 := Nat.mod_lt _ (by norm_num)
  generalize x % 2 ^ 64 = y at hy
  by_cases h : y < 2 ^ 63
  · rw [castJlong_small y h]
    omega
  · rw [castJlong_large y (by omega) hy]
    omega

theorem castJlong_nonneg_iff (x : Nat) : 0 ≤ castJlong x ↔ x % 2 ^ 64 < 2 ^ 63 := by
  rw [castJlong_mod]
  have hy : x % 2 ^ 64 < 2 ^ 64 := Nat.mod_lt _ (by norm_num)
  generalize x % 2 ^ 64 = y at hy
  by_cases h : y < 2 ^ 63
  · rw [castJlong_small y h]
    omega
  · rw [castJlong_large y (by omega) hy]
    omega

theorem castJlong_eq_neg_one_iff (x : Nat) : castJlong x = -1 ↔ x % 2 ^ 64 = 2 ^ 64 - 1 := by
  rw [castJlong_mod]
  have hy : x % 2 ^ 64 < 2 ^ 64 := Nat.mod_lt _ (by norm_num)
  generalize x % 2 ^ 64 = y at hy
  by_cases h : y < 2 ^ 63
  · rw [castJlong_small y h]
    omega
  · rw [castJlong_large y (by omega) hy]
    omega

theorem castJlong_injOn (x y : Nat) (hx : x < 2 ^ 64) (hy : y < 2 ^ 64)
    (h : castJlong x = castJlong y) : x = y := by
  by_cases h1 : x < 2 ^ 63 <;> by_cases h2 : y < 2 ^ 63
  · rw [castJlong_small x h1, castJlong_small y h2] at h
    omega
  · rw [castJlong_small x h1, castJlong_large y (by omega) hy] at h
    omega
  · rw [castJlong_large x (by omega) hx, castJlong_small y h2] at h
    omega
  · rw [castJlong_large x (by omega) hx, castJlong_large y (by omega) hy] at h
    omega

/-! ## What one call does -/

theorem getInode_result (env : JNIEnv) (libc : Libc) (cls : jclass) (path : jstring)
    (stack : struct_stat) (w : World) :
    (Java_com_netease_util_InodeUtil_getInode env libc cls path stack w).1 =
      match statQuery env libc path w with
      | Except.ok m => castJlong m.st_ino
      | Except.error _ => -1 := by
  unfold Java_com_netease_util_InodeUtil_getInode callGetStringUTFChars callStat statQuery cpathOf
  simp only []
  rcases h : libc.stat (deref (env.GetStringUTFChars path w.jvm).1) w.fs with ⟨r, fs⟩
  cases r <;> simp

theorem getInode_ok (env : JNIEnv) (libc : Libc) (cls : jclass) (path : jstring)
    (stack : struct_stat) (w : World) (m : struct_stat)
    (h : statQuery env libc path w = Except.ok m) :
    (Java_com_netease_util_InodeUtil_getInode env libc cls path stack w).1 = castJlong m.st_ino := by
  rw [getInode_result, h]

theorem getInode_error (env : JNIEnv) (libc : Libc) (cls : jclass) (path : jstring)
    (stack : struct_stat) (w : World) (e : Errno)
    (h : statQuery env libc path w = Except.error e) :
    (Java_com_netease_util_InodeUtil_getInode env libc cls path stack w).1 = -1 := by
  rw [getInode_result, h]

theorem statRc_ok (env : JNIEnv) (libc : Libc) (path : jstring) (stack : struct_stat)
    (w : World) (m : struct_stat) (h : statQuery env libc path w = Except.ok m) :
    statRc env libc path stack w = 0 := by
  unfold statQuery at h
  unfold statRc callStat callGetStringUTFChars
  simp only []
  rcases h2 : libc.stat (deref (cpathOf env path w)) w.fs with ⟨r, fs⟩
  rw [h2] at h
  simp only [] at h
  subst h
  rfl

theorem statRc_error (env : JNIEnv) (libc : Libc) (path : jstring) (stack : struct_stat)
    (w : World) (e : Errno) (h : statQuery env libc path w = Except.error e) :
    statRc env libc path stack w = -1 := by
  unfold statQuery at h
  unfold statRc callStat callGetStringUTFChars
  simp only []
  rcases h2 : libc.stat (deref (cpathOf env path w)) w.fs with ⟨r, fs⟩
  rw [h2] at h
  simp only [] at h
  subst h
  rfl

theorem statRc_eq_neg_one_iff (env : JNIEnv) (libc : Libc) (path : jstring)
    (stack : struct_stat) (w : World) :
    statRc env libc path stack w = -1 ↔ statFails env libc path w := by
  unfold statFails
  rcases h : statQuery env libc path w with e | m
  · rw [statRc_error env libc path stack w e h]
    simp
  · rw [statRc_ok env libc path stack w m h]
    simp

theorem getInode_world (env : JNIEnv) (libc : Libc) (cls : jclass) (path : jstring)
    (stack : struct_stat) (w : World) :
    (Java_com_netease_util_InodeUtil_getInode env libc cls path stack w).2.jvm =
        env.ReleaseStringUTFChars path (cpathOf env path w) (env.GetStringUTFChars path w.jvm).2 ∧
      (Java_com_netease_util_InodeUtil_getInode env libc cls path stack w).2.fs =
        (libc.stat (deref (cpathOf env path w)) w.fs).2 ∧
      (Java_com_netease_util_InodeUtil_getInode env libc cls path stack w).2.trace =
        w.trace ++ [Call.GetStringUTFChars path (cpathOf env path w),
          Call.stat (cpathOf env path w) (statRc env libc path stack w),
          Call.ReleaseStringUTFChars path (cpathOf env path w)] := by
  unfold Java_com_netease_util_InodeUtil_getInode statRc callReleaseStringUTFChars
    callGetStringUTFChars callStat cpathOf
  simp only []
  rcases h : libc.stat (deref (env.GetStringUTFChars path w.jvm).1) w.fs with ⟨r, fs⟩
  cases r <;> simp

/-! ## The claims -/

/-- C1: whenever the `stat` call on the path returns `-1`, whatever error it
stores in `errno` and whatever the uninitialised buffer `stack` holds,
`getInode` returns exactly `-1`. -/
theorem getInode_failure_returns_sentinel (env : JNIEnv) (libc : Libc) (cls : jclass)
    (path : jstring) (stack : struct_stat) (w : World)
    (h : statRc env libc path stack w = -1) :
    (Java_com_netease_util_InodeUtil_getInode env libc cls path stack w).1 = -1 := by
  rcases (statRc_eq_neg_one_iff env libc path stack w).1 h with ⟨e, he⟩
  exact getInode_error env libc cls path stack w e he

/-- Witness of C1: `getInode("/tmp/does-not-exist-xyz")` is `-1`. -/
theorem getInode_failure_returns_sentinel_witness :
    statQuery reliableEnv posixLibc ⟨"/tmp/does-not-exist-xyz"⟩ sampleWorld = Except.error ENOENT ∧
      statRc reliableEnv posixLibc ⟨"/tmp/does-not-exist-xyz"⟩ sampleStack sampleWorld = -1 ∧
      (Java_com_netease_util_InodeUtil_getInode reliableEnv posixLibc 0
        ⟨"/tmp/does-not-exist-xyz"⟩ sampleStack sampleWorld).1 = -1 :=
  ⟨rfl, by decide,
    getInode_failure_returns_sentinel reliableEnv posixLibc 0 ⟨"/tmp/does-not-exist-xyz"⟩
      sampleStack sampleWorld (by decide)⟩

/-- Counterexample to C2: the status query succeeds and reports the inode
number `2 ^ 63 + 5`, and `getInode` returns `-(2 ^ 63) + 5`: not the inode
number the query reports, and not a positive integer. -/
theorem getInode_differs_from_reported_inode :
    statQuery reliableEnv posixLibc ⟨"/mnt/big/m"⟩ highInodeWorld =
        Except.ok { st_dev := 41, st_ino := 9223372036854775813, st_nlink := 1, st_size := 3 } ∧
      (Java_com_netease_util_InodeUtil_getInode reliableEnv posixLibc 0
        ⟨"/mnt/big/m"⟩ sampleStack highInodeWorld).1 = -9223372036854775803 ∧
      (Java_com_netease_util_InodeUtil_getInode reliableEnv posixLibc 0
        ⟨"/mnt/big/m"⟩ sampleStack highInodeWorld).1 ≠ ((9223372036854775813 : Nat) : Int) ∧
      ¬ 0 < (Java_com_netease_util_InodeUtil_getInode reliableEnv posixLibc 0
        ⟨"/mnt/big/m"⟩ sampleStack highInodeWorld).1 := by
  refine ⟨rfl, by decide, by decide, by decide⟩

/-- C2, amended: whenever the status query on the path succeeds with metadata
`m`, `getInode` returns `m.st_ino` converted to a 64-bit signed integer by the
C cast: the result is a `jlong` with the same 64-bit pattern as `st_ino`; it
is the number `st_ino` itself when `st_ino < 2 ^ 63` (positive when `st_ino`
is), and it is `st_ino - 2 ^ 64` when `2 ^ 63 ≤ st_ino < 2 ^ 64`. -/
theorem getInode_success_returns_st_ino (env : JNIEnv) (libc : Libc) (cls : jclass)
    (path : jstring) (stack : struct_stat) (w : World) (m : struct_stat)
    (h : statQuery env libc path w = Except.ok m) :
    (Java_com_netease_util_InodeUtil_getInode env libc cls path stack w).1 = castJlong m.st_ino ∧
      JLONG_MIN ≤ (Java_com_netease_util_InodeUtil_getInode env libc cls path stack w).1 ∧
      (Java_com_netease_util_InodeUtil_getInode env libc cls path stack w).1 ≤ JLONG_MAX ∧
      (Java_com_netease_util_InodeUtil_getInode env libc cls path stack w).1 % 2 ^ 64 = ((m.st_ino % 2 ^ 64 : Nat) : Int) ∧
      (m.st_ino < 2 ^ 63 → (Java_com_netease_util_InodeUtil_getInode env libc cls path stack w).1 = (m.st_ino : Int)) ∧
      (2 ^ 63 ≤ m.st_ino → m.st_ino < 2 ^ 64 → (Java_com_netease_util_InodeUtil_getInode env libc cls path stack w).1 = (m.st_ino : Int) - 2 ^ 64) ∧
      (0 < m.st_ino → m.st_ino < 2 ^ 63 → 0 < (Java_com_netease_util_InodeUtil_getInode env libc cls path stack w).1) := by
  rw [getInode_ok env libc cls path stack w m h]
  refine ⟨rfl, (castJlong_range _).1, (castJlong_range _).2, castJlong_emod _, ?_, ?_, ?_⟩
  · intro hlt
    exact castJlong_small _ hlt
  · intro hge hlt
    exact castJlong_large _ hge hlt
  · intro hpos hlt
    rw [castJlong_small _ hlt]
    exact_mod_cast hpos

/-- Witness of C2, amended: a freshly created file with inode 131077, and a
file whose inode number is above the signed range. -/
theorem getInode_success_returns_st_ino_witness :
    (statQuery reliableEnv posixLibc ⟨"/tmp/example.txt"⟩ sampleWorld =
        Except.ok { st_dev := 2049, st_ino := 131077, st_nlink := 2, st_size := 0 } ∧
      (Java_com_netease_util_InodeUtil_getInode reliableEnv posixLibc 0
        ⟨"/tmp/example.txt"⟩ sampleStack sampleWorld).1 = 131077) ∧
      (Java_com_netease_util_InodeUtil_getInode reliableEnv posixLibc 0
        ⟨"/mnt/big/m"⟩ sampleStack highInodeWorld).1 =
          ((9223372036854775813 : Nat) : Int) - 2 ^ 64 :=
  ⟨⟨rfl, ((getInode_success_returns_st_ino reliableEnv posixLibc 0 ⟨"/tmp/example.txt"⟩
      sampleStack sampleWorld { st_dev := 2049, st_ino := 131077, st_nlink := 2, st_size := 0 }
      rfl).2.2.2.2.1 (by decide))⟩,
    ((getInode_success_returns_st_ino reliableEnv posixLibc 0 ⟨"/mnt/big/m"⟩
      sampleStack highInodeWorld
      { st_dev := 41, st_ino := 9223372036854775813, st_nlink := 1, st_size := 3 }
      rfl).2.2.2.2.2.1 (by decide) (by decide))⟩

/-- Counterexample to C3: the status query succeeds with `st_ino = 2 ^ 63`, a
value of the unsigned 64-bit inode type, and `getInode` returns `-2 ^ 63`,
which is neither `-1` nor non-negative. -/
theorem getInode_negative_on_success :
    statQuery reliableEnv posixLibc ⟨"/mnt/big/a"⟩ sampleWorld =
        Except.ok { st_dev := 40, st_ino := 9223372036854775808, st_nlink := 1, st_size := 1 } ∧
      (Java_com_netease_util_InodeUtil_getInode reliableEnv posixLibc 0
        ⟨"/mnt/big/a"⟩ sampleStack sampleWorld).1 = -9223372036854775808 ∧
      ¬ ((Java_com_netease_util_InodeUtil_getInode reliableEnv posixLibc 0
            ⟨"/mnt/big/a"⟩ sampleStack sampleWorld).1 = -1 ∨
          0 ≤ (Java_com_netease_util_InodeUtil_getInode reliableEnv posixLibc 0
            ⟨"/mnt/big/a"⟩ sampleStack sampleWorld).1) := by
  refine ⟨rfl, by decide, by decide⟩

/-- C3, amended: for every path and every outcome of the status query the
value returned lies in the 64-bit signed range; on a successful query it is
non-negative exactly when `st_ino < 2 ^ 63`, and then it is `st_ino` itself;
so whenever the query fails or succeeds with `st_ino < 2 ^ 63`, the value is
either exactly `-1` or non-negative, never below `-1`. -/
theorem getInode_sentinel_or_nonneg (env : JNIEnv) (libc : Libc) (cls : jclass)
    (path : jstring) (stack : struct_stat) (w : World) :
    JLONG_MIN ≤ (Java_com_netease_util_InodeUtil_getInode env libc cls path stack w).1 ∧
      (Java_com_netease_util_InodeUtil_getInode env libc cls path stack w).1 ≤ JLONG_MAX ∧
      (∀ m, statQuery env libc path w = Except.ok m →
        (0 ≤ (Java_com_netease_util_InodeUtil_getInode env libc cls path stack w).1 ↔ m.st_ino % 2 ^ 64 < 2 ^ 63)) ∧
      (∀ m, statQuery env libc path w = Except.ok m → m.st_ino % 2 ^ 64 < 2 ^ 63 →
        (Java_com_netease_util_InodeUtil_getInode env libc cls path stack w).1 = ((m.st_ino % 2 ^ 64 : Nat) : Int)) ∧
      ((∀ m, statQuery env libc path w = Except.ok m → m.st_ino % 2 ^ 64 < 2 ^ 63) →
        ((Java_com_netease_util_InodeUtil_getInode env libc cls path stack w).1 = -1 ∨ 0 ≤ (Java_com_netease_util_InodeUtil_getInode env libc cls path stack w).1) ∧ -1 ≤ (Java_com_netease_util_InodeUtil_getInode env libc cls path stack w).1) := by
  rcases hq : statQuery env libc path w with e | m
  · rw [getInode_error env libc cls path stack w e hq]
    refine ⟨by decide, by decide, ?_, ?_, ?_⟩
    · intro m hm
      cases hm
    · intro m hm
      cases hm
    · intro _
      exact ⟨Or.inl rfl, le_refl _⟩
  · rw [getInode_ok env libc cls path stack w m hq]
    have hsmall : m.st_ino % 2 ^ 64 < 2 ^ 63 →
        castJlong m.st_ino = ((m.st_ino % 2 ^ 64 : Nat) : Int) := by
      intro hlt
      rw [castJlong_mod]
      exact castJlong_small _ hlt
    refine ⟨(castJlong_range _).1, (castJlong_range _).2, ?_, ?_, ?_⟩
    · intro m2 hm
      cases hm
      exact castJlong_nonneg_iff _
    · intro m2 hm hlt
      cases hm
      exact hsmall hlt
    · intro hall
      have h0 : (0 : Int) ≤ castJlong m.st_ino := (castJlong_nonneg_iff _).2 (hall m rfl)
      have h1 : (-1 : Int) ≤ 0 := by decide
      exact ⟨Or.inr h0, le_trans h1 h0⟩

/-- Witness of C3, amended: an existing file with inode 131078 gives a
non-negative value, and the value for an inode number above the signed range
still lies in the 64-bit signed range. -/
theorem getInode_sentinel_or_nonneg_witness :
    0 ≤ (Java_com_netease_util_InodeUtil_getInode reliableEnv posixLibc 0
        ⟨"/tmp/other.txt"⟩ sampleStack sampleWorld).1 ∧
      JLONG_MIN ≤ (Java_com_netease_util_InodeUtil_getInode reliableEnv posixLibc 0
        ⟨"/mnt/big/a"⟩ sampleStack sampleWorld).1 :=
  ⟨((getInode_sentinel_or_nonneg reliableEnv posixLibc 0 ⟨"/tmp/other.txt"⟩ sampleStack
      sampleWorld).2.2.1
      { st_dev := 2049, st_ino := 131078, st_nlink := 1, st_size := 12 } rfl).2 (by decide),
    (getInode_sentinel_or_nonneg reliableEnv posixLibc 0 ⟨"/mnt/big/a"⟩ sampleStack
      sampleWorld).1⟩

/-- Counterexample to C4: the status query succeeds with the largest inode
number, `2 ^ 64 - 1`, and `getInode` returns the sentinel `-1`. -/
theorem getInode_sentinel_on_success :
    statQuery reliableEnv posixLibc ⟨"/mnt/big/z"⟩ sampleWorld =
        Except.ok { st_dev := 40, st_ino := 18446744073709551615, st_nlink := 1, st_size := 1 } ∧
      statRc reliableEnv posixLibc ⟨"/mnt/big/z"⟩ sampleStack sampleWorld = 0 ∧
      (Java_com_netease_util_InodeUtil_getInode reliableEnv posixLibc 0
        ⟨"/mnt/big/z"⟩ sampleStack sampleWorld).1 = -1 := by
  refine ⟨rfl, by decide, by decide⟩

/-- C4, amended: `getInode` returns `-1` if and only if the status query
failed or it succeeded with the inode number `2 ^ 64 - 1`; so every failed
query yields `-1` and a successful query with any other inode number does
not. -/
theorem getInode_sentinel_iff (env : JNIEnv) (libc : Libc) (cls : jclass)
    (path : jstring) (stack : struct_stat) (w : World) :
    (Java_com_netease_util_InodeUtil_getInode env libc cls path stack w).1 = -1 ↔
      (statRc env libc path stack w = -1 ∨
        ∃ m, statQuery env libc path w = Except.ok m ∧ m.st_ino % 2 ^ 64 = 2 ^ 64 - 1) := by
  rcases hq : statQuery env libc path w with e | m
  · rw [getInode_error env libc cls path stack w e hq, statRc_error env libc path stack w e hq]
    simp
  · rw [getInode_ok env libc cls path stack w m hq, statRc_ok env libc path stack w m hq,
      castJlong_eq_neg_one_iff]
    simp

/-- C5: on every execution, whether the status query succeeds or fails, the
calls made are exactly: `GetStringUTFChars(path)`, which yields the pointer,
then `stat` on that pointer, then one `ReleaseStringUTFChars` with the same
string and the same pointer; nothing follows the release.  The runtime state
on return is the one this release leaves, and with a runtime that keeps track
of the strings it handed out, none is outstanding that was not before. -/
theorem getInode_releases_once_after_stat (env : JNIEnv) (libc : Libc) (cls : jclass)
    (path : jstring) (stack : struct_stat) (w : World) :
    (Java_com_netease_util_InodeUtil_getInode env libc cls path stack w).2.trace =
        w.trace ++ [Call.GetStringUTFChars path (cpathOf env path w),
          Call.stat (cpathOf env path w) (statRc env libc path stack w),
          Call.ReleaseStringUTFChars path (cpathOf env path w)] ∧
      (Java_com_netease_util_InodeUtil_getInode env libc cls path stack w).2.jvm =
        env.ReleaseStringUTFChars path (cpathOf env path w) (env.GetStringUTFChars path w.jvm).2 ∧
      (Java_com_netease_util_InodeUtil_getInode reliableEnv libc cls path stack w).2.jvm.utf =
        w.jvm.utf := by
  refine ⟨(getInode_world env libc cls path stack w).2.2,
    (getInode_world env libc cls path stack w).1, ?_⟩
  rw [(getInode_world reliableEnv libc cls path stack w).1]
  simp [reliableEnv, cpathOf]

/-- Counterexample to C6: with a runtime whose conversion fails with `NULL`
and an `OutOfMemoryError`, no exception is pending before the call, and on
return `getInode` has the value `-1` and leaves the exception pending for the
caller. -/
theorem getInode_leaves_exception_pending :
    sampleWorld.jvm.pending = none ∧
      cpathOf exhaustedEnv ⟨"/tmp/example.txt"⟩ sampleWorld = none ∧
      (Java_com_netease_util_InodeUtil_getInode exhaustedEnv posixLibc 0
        ⟨"/tmp/example.txt"⟩ sampleStack sampleWorld).1 = -1 ∧
      (Java_com_netease_util_InodeUtil_getInode exhaustedEnv posixLibc 0
        ⟨"/tmp/example.txt"⟩ sampleStack sampleWorld).2.jvm.pending =
          some "java.lang.OutOfMemoryError" := by
  refine ⟨rfl, rfl, by decide, by decide⟩

/-- C6, amended: `getInode` always returns a `jlong` and raises nothing of
its own: the exception pending on return is exactly the one the runtime's
`GetStringUTFChars` and `ReleaseStringUTFChars` calls leave, so none is
pending when they leave none; and every failure of the status query, also the
one on the `NULL` pointer of a failed conversion, is reported as `-1`. -/
theorem getInode_raises_nothing_itself (env : JNIEnv) (libc : Libc) (cls : jclass)
    (path : jstring) (stack : struct_stat) (w : World) :
    JLONG_MIN ≤ (Java_com_netease_util_InodeUtil_getInode env libc cls path stack w).1 ∧
      (Java_com_netease_util_InodeUtil_getInode env libc cls path stack w).1 ≤ JLONG_MAX ∧
      (Java_com_netease_util_InodeUtil_getInode env libc cls path stack w).2.jvm.pending =
        (env.ReleaseStringUTFChars path (cpathOf env path w)
          (env.GetStringUTFChars path w.jvm).2).pending ∧
      ((env.ReleaseStringUTFChars path (cpathOf env path w)
          (env.GetStringUTFChars path w.jvm).2).pending = none →
        (Java_com_netease_util_InodeUtil_getInode env libc cls path stack w).2.jvm.pending = none) ∧
      (statRc env libc path stack w = -1 → (Java_com_netease_util_InodeUtil_getInode env libc cls path stack w).1 = -1) ∧
      (∀ e, cpathOf env path w = none → (libc.stat none w.fs).1 = Except.error e →
        (Java_com_netease_util_InodeUtil_getInode env libc cls path stack w).1 = -1) := by
  have hp : (Java_com_netease_util_InodeUtil_getInode env libc cls path stack w).2.jvm.pending =
      (env.ReleaseStringUTFChars path (cpathOf env path w)
        (env.GetStringUTFChars path w.jvm).2).pending := by
    rw [(getInode_world env libc cls path stack w).1]
  refine ⟨?_, ?_, hp, ?_, ?_, ?_⟩
  · rw [getInode_result]
    rcases statQuery env libc path w with e | m
    · exact (by decide : JLONG_MIN ≤ (-1 : Int))
    · exact (castJlong_range _).1
  · rw [getInode_result]
    rcases statQuery env libc path w with e | m
    · exact (by decide : (-1 : Int) ≤ JLONG_MAX)
    · exact (castJlong_range _).2
  · intro h
    rw [hp]
    exact h
  · intro h
    rcases (statRc_eq_neg_one_iff env libc path stack w).1 h with ⟨e, he⟩
    exact getInode_error env libc cls path stack w e he
  · intro e hnull he
    apply getInode_error env libc cls path stack w e
    unfold statQuery
    rw [hnull]
    exact he

/-- Witness of C6, amended: a conversion that succeeds, on a path whose
lookup is refused, leaves nothing pending and gives `-1`; a conversion that
fails gives `-1` as well, and a `jlong`. -/
theorem getInode_raises_nothing_itself_witness :
    (Java_com_netease_util_InodeUtil_getInode reliableEnv posixLibc 0
        ⟨"/root/secret"⟩ sampleStack sampleWorld).2.jvm.pending = none ∧
      (Java_com_netease_util_InodeUtil_getInode reliableEnv posixLibc 0
        ⟨"/root/secret"⟩ sampleStack sampleWorld).1 = -1 ∧
      (Java_com_netease_util_InodeUtil_getInode exhaustedEnv posixLibc 0
        ⟨"/tmp/other.txt"⟩ sampleStack sampleWorld).1 = -1 ∧
      (Java_com_netease_util_InodeUtil_getInode exhaustedEnv posixLibc 0
        ⟨"/tmp/other.txt"⟩ sampleStack sampleWorld).1 ≤ JLONG_MAX :=
  ⟨(getInode_raises_nothing_itself reliableEnv posixLibc 0 ⟨"/root/secret"⟩ sampleStack
      sampleWorld).2.2.2.1 rfl,
    (getInode_raises_nothing_itself reliableEnv posixLibc 0 ⟨"/root/secret"⟩ sampleStack
      sampleWorld).2.2.2.2.1 (by decide),
    (getInode_raises_nothing_itself exhaustedEnv posixLibc 0 ⟨"/tmp/other.txt"⟩ sampleStack
      sampleWorld).2.2.2.2.2 EFAULT rfl rfl,
    (getInode_raises_nothing_itself exhaustedEnv posixLibc 0 ⟨"/tmp/other.txt"⟩ sampleStack
      sampleWorld).2.1⟩

/-- C7: the filesystem on return is the one the single `stat` query leaves, so
with a read-only `stat` it equals the filesystem on entry, on the success and
on the failure branch alike; and the only call to the operating system is
that one `stat`. -/
theorem getInode_leaves_filesystem (env : JNIEnv) (libc : Libc) (cls : jclass)
    (path : jstring) (stack : struct_stat) (w : World)
    (h : (libc.stat (deref (cpathOf env path w)) w.fs).2 = w.fs) :
    (Java_com_netease_util_InodeUtil_getInode env libc cls path stack w).2.fs = w.fs ∧
      ((Java_com_netease_util_InodeUtil_getInode env libc cls path stack w).2.trace.drop
          w.trace.length).filter Call.isOsCall =
        [Call.stat (cpathOf env path w) (statRc env libc path stack w)] := by
  constructor
  · rw [(getInode_world env libc cls path stack w).2.1]
    exact h
  · rw [(getInode_world env libc cls path stack w).2.2, List.drop_left]
    simp [Call.isOsCall]

/-- Witness of C7: an existing file. -/
theorem getInode_leaves_filesystem_witness :
    (Java_com_netease_util_InodeUtil_getInode reliableEnv posixLibc 0
        ⟨"/tmp/example.txt"⟩ sampleStack sampleWorld).2.fs = sampleFs :=
  (getInode_leaves_filesystem reliableEnv posixLibc 0 ⟨"/tmp/example.txt"⟩ sampleStack
    sampleWorld rfl).1

/-- C8: when the file is not changed (the `stat` query of the first call
leaves the filesystem as it is) and the runtime hands the second call the
same path text as the first, a second call made on the state the first one
leaves returns the same value, be it an inode number or `-1`. -/
theorem getInode_idempotent (env : JNIEnv) (libc : Libc) (cls : jclass)
    (path : jstring) (stack1 stack2 : struct_stat) (w : World)
    (hfs : (libc.stat (deref (cpathOf env path w)) w.fs).2 = w.fs)
    (hconv : deref (cpathOf env path
      (Java_com_netease_util_InodeUtil_getInode env libc cls path stack1 w).2) =
        deref (cpathOf env path w)) :
    (Java_com_netease_util_InodeUtil_getInode env libc cls path stack2
        (Java_com_netease_util_InodeUtil_getInode env libc cls path stack1 w).2).1 =
      (Java_com_netease_util_InodeUtil_getInode env libc cls path stack1 w).1 := by
  have hq : statQuery env libc path
      (Java_com_netease_util_InodeUtil_getInode env libc cls path stack1 w).2 =
      statQuery env libc path w := by
    unfold statQuery
    rw [hconv, (getInode_world env libc cls path stack1 w).2.1, hfs]
  rw [getInode_result env libc cls path stack2, hq, ← getInode_result env libc cls path stack1]

/-- Witness of C8: two calls in a row on an existing file give 131077 twice. -/
theorem getInode_idempotent_witness :
    (Java_com_netease_util_InodeUtil_getInode reliableEnv posixLibc 0 ⟨"/tmp/example.txt"⟩
        sampleStack
        (Java_com_netease_util_InodeUtil_getInode reliableEnv posixLibc 0 ⟨"/tmp/example.txt"⟩
          sampleStack sampleWorld).2).1 =
      (Java_com_netease_util_InodeUtil_getInode reliableEnv posixLibc 0 ⟨"/tmp/example.txt"⟩
        sampleStack sampleWorld).1 :=
  getInode_idempotent reliableEnv posixLibc 0 ⟨"/tmp/example.txt"⟩ sampleStack sampleStack
    sampleWorld rfl rfl

/-- C9: when the status query succeeds on two paths and reports the same
`st_ino` for both, as it does for two hard links of one file, `getInode`
returns the same value for both. -/
theorem getInode_hard_links_agree (env : JNIEnv) (libc : Libc) (cls : jclass)
    (p1 p2 : jstring) (stack1 stack2 : struct_stat) (w1 w2 : World) (m1 m2 : struct_stat)
    (h1 : statQuery env libc p1 w1 = Except.ok m1)
    (h2 : statQuery env libc p2 w2 = Except.ok m2)
    (hino : m1.st_ino = m2.st_ino) :
    (Java_com_netease_util_InodeUtil_getInode env libc cls p1 stack1 w1).1 =
      (Java_com_netease_util_InodeUtil_getInode env libc cls p2 stack2 w2).1 := by
  rw [getInode_ok env libc cls p1 stack1 w1 m1 h1, getInode_ok env libc cls p2 stack2 w2 m2 h2,
    hino]

/-- Witness of C9: the two names of the file with inode 131077. -/
theorem getInode_hard_links_agree_witness :
    (Java_com_netease_util_InodeUtil_getInode reliableEnv posixLibc 0 ⟨"/tmp/example.txt"⟩
        sampleStack sampleWorld).1 =
      (Java_com_netease_util_InodeUtil_getInode reliableEnv posixLibc 0 ⟨"/tmp/example.lnk"⟩
        sampleStack sampleWorld).1 :=
  getInode_hard_links_agree reliableEnv posixLibc 0 ⟨"/tmp/example.txt"⟩ ⟨"/tmp/example.lnk"⟩
    sampleStack sampleStack sampleWorld sampleWorld
    { st_dev := 2049, st_ino := 131077, st_nlink := 2, st_size := 0 }
    { st_dev := 2049, st_ino := 131077, st_nlink := 2, st_size := 0 } rfl rfl rfl

/-- C10: when the status query succeeds on two paths and reports different
`st_ino` values (values of the unsigned 64-bit inode type), `getInode` returns
different values for them: the conversion to `jlong` maps no two inode
numbers to the same result. -/
theorem getInode_distinct_inodes_differ (env : JNIEnv) (libc : Libc) (cls : jclass)
    (p1 p2 : jstring) (stack1 stack2 : struct_stat) (w1 w2 : World) (m1 m2 : struct_stat)
    (h1 : statQuery env libc p1 w1 = Except.ok m1)
    (h2 : statQuery env libc p2 w2 = Except.ok m2)
    (hb1 : m1.st_ino < 2 ^ 64) (hb2 : m2.st_ino < 2 ^ 64)
    (hino : m1.st_ino ≠ m2.st_ino) :
    (Java_com_netease_util_InodeUtil_getInode env libc cls p1 stack1 w1).1 ≠
      (Java_com_netease_util_InodeUtil_getInode env libc cls p2 stack2 w2).1 := by
  rw [getInode_ok env libc cls p1 stack1 w1 m1 h1, getInode_ok env libc cls p2 stack2 w2 m2 h2]
  intro heq
  exact hino (castJlong_injOn _ _ hb1 hb2 heq)

/-- Witness of C10: two different files on one volume, the second with an
inode number above the signed range. -/
theorem getInode_distinct_inodes_differ_witness :
    (Java_com_netease_util_InodeUtil_getInode reliableEnv posixLibc 0 ⟨"/mnt/big/a"⟩
        sampleStack sampleWorld).1 ≠
      (Java_com_netease_util_InodeUtil_getInode reliableEnv posixLibc 0 ⟨"/mnt/big/z"⟩
        sampleStack sampleWorld).1 :=
  getInode_distinct_inodes_differ reliableEnv posixLibc 0 ⟨"/mnt/big/a"⟩ ⟨"/mnt/big/z"⟩
    sampleStack sampleStack sampleWorld sampleWorld
    { st_dev := 40, st_ino := 9223372036854775808, st_nlink := 1, st_size := 1 }
    { st_dev := 40, st_ino := 18446744073709551615, st_nlink := 1, st_size := 1 }
    rfl rfl (by decide) (by decide) (by decide)

end InodeUtil
